import Mathlib

/-!
Shallow embedding of the IPMA MCP weather server (`src/index.js`).

Remote fetches are modelled by an explicit environment (`Env`) holding the
outcome of every upstream endpoint: `Except.error m` models a fetch or JSON
failure raised with message `m`, mirroring the JavaScript exception channel
inside a handler's `try` block.  JavaScript objects built by repeated key
assignment are modelled as association lists read by `objLookup`, which
returns the last binding (overwrite-on-assign semantics).  `Date` locale
formatting (`toLocaleString('pt-PT')`) is runtime-library behaviour outside
this repository and is embedded as the identity on the timestamp string.
Numeric JSON fields compared or classified by the code (`parseFloat` results,
station observations) are modelled as rationals; JSON fields that are only
interpolated into output text are modelled as strings.
-/

namespace IPMA

/-- Error codes of the MCP SDK used by the server: `ErrorCode.InvalidParams`,
`ErrorCode.MethodNotFound`, `ErrorCode.InternalError`. -/
inductive ErrorCode where
  | invalidParams
  | methodNotFound
  | internalError
  deriving DecidableEq

/-- Structured protocol error, mirroring `new McpError(code, message)`. -/
structure McpError where
  code : ErrorCode
  message : String
  deriving DecidableEq

/-- One `{type: "text", text}` block of a tool result. -/
structure TextContent where
  type : String := "text"
  text : String
  deriving DecidableEq

/-- Result object returned by every handler: `{content: [...]}`. -/
structure ToolResult where
  content : List TextContent
  deriving DecidableEq

/-- One entry of `distrits-islands.json` (`data` array).  The JSON field
`local` is a Lean keyword, hence the trailing underscore. -/
structure Location where
  local_ : String
  globalIdLocal : Nat
  latitude : String
  longitude : String
  idDistrito : Nat
  deriving DecidableEq

/-- Response shape of `distrits-islands.json`. -/
structure LocationsResp where
  data : List Location
  deriving DecidableEq

/-- One daily entry of `forecast/meteorology/cities/daily/{id}.json`. -/
structure ForecastDay where
  forecastDate : String
  tMin : String
  tMax : String
  idWeatherType : Nat
  precipitaProb : String
  predWindDir : String
  deriving DecidableEq

/-- Response shape of the daily forecast endpoint. -/
structure ForecastResp where
  dataUpdate : String
  data : List ForecastDay
  deriving DecidableEq

/-- One entry of `weather-type-classe.json` (`data` array). -/
structure WeatherType where
  idWeatherType : Nat
  descWeatherTypePT : String
  deriving DecidableEq

/-- Response shape of `weather-type-classe.json`. -/
structure WeatherTypesResp where
  data : List WeatherType
  deriving DecidableEq

/-- One entry of the warnings array `warnings_www.json`. -/
structure Warning where
  awarenessTypeName : String
  idAreaAviso : String
  awarenessLevelID : String
  startTime : String
  endTime : String
  text : Option String := none
  deriving DecidableEq

/-- One seismic event of `observation/seismic/{areaId}.json` (`data` array). -/
structure Quake where
  time : String
  obsRegion : Option String := none
  magnitud : String
  magType : String
  depth : String
  lat : String
  lon : String
  dataUpdate : String
  deriving DecidableEq

/-- Response shape of the seismic endpoint; `data := none` models a response
whose `data` field is absent (falsy), which the code treats like empty. -/
structure SeismicResp where
  data : Option (List Quake) := none
  deriving DecidableEq

/-- One station observation record; the upstream sentinel `-99` means
"no reading". -/
structure Obs where
  temperatura : ℚ
  humidade : ℚ
  pressao : ℚ
  intensidadeVento : ℚ
  precAcumulada : ℚ
  deriving DecidableEq

/-- The `properties` object of one station feature of `stations.json`. -/
structure StationProperties where
  idEstacao : Nat
  localEstacao : String
  deriving DecidableEq

/-- One GeoJSON feature of `stations.json`. -/
structure StationFeature where
  properties : StationProperties
  deriving DecidableEq

/-- One entry of `forecast/meteorology/uv/uv.json`; its `data` field is the
date string, and `iUv` is the numeric value `parseFloat` extracts. -/
structure UVData where
  data : String
  globalIdLocal : Nat
  iUv : ℚ
  intervaloHora : String
  deriving DecidableEq

/-- Outcome of every upstream fetch the six handlers can perform.
`warnings` and `uv` carry `none` when the response body is not an array
(the `!Array.isArray(data)` check); `observations` is the timestamp-keyed
object mapped to station-id-keyed observation objects, in enumeration
order. -/
structure Env where
  locations : Except String LocationsResp
  forecast : Nat → Except String ForecastResp
  weatherTypes : Except String WeatherTypesResp
  warnings : Except String (Option (List Warning))
  seismic : Nat → Except String SeismicResp
  observations : Except String (List (String × List (Nat × Obs)))
  stations : Except String (List StationFeature)
  uv : Except String (Option (List UVData))

/-- The result literal `{content: [{type: "text", text}]}` every handler
returns. -/
def textResult (t : String) : ToolResult := { content := [{ text := t }] }

/-- Lowercasing as `String.prototype.toLowerCase` behaves on the ASCII
names involved, written on the character list so that it kernel-reduces. -/
def strToLower (s : String) : String := ⟨s.data.map Char.toLower⟩

/-- JavaScript `hay.includes(needle)`: `needle` occurs as a contiguous
substring of `hay`. -/
def strIncludes (hay needle : String) : Bool :=
  (List.range (hay.data.length + 1)).any (fun i => needle.data.isPrefixOf (hay.data.drop i))

/-- Reading key `k` from a JavaScript object built by repeated assignment
over a list of bindings: the last binding for `k` wins. -/
def objLookup {κ α : Type} [BEq κ] (l : List (κ × α)) (k : κ) : Option α :=
  (l.reverse.find? (fun p => p.1 == k)).map Prod.snd

/-- JavaScript `x || d` for an optional number: `undefined` and the falsy
number `0` fall back to the default. -/
def jsNumOr (o : Option Nat) (d : Nat) : Nat :=
  match o with
  | none => d
  | some n => if n = 0 then d else n

/-- JavaScript `x || d` for an optional string: `undefined` and the falsy
empty string fall back to the default. -/
def jsStrOr (o : Option String) (d : String) : String :=
  match o with
  | none => d
  | some s => if s = "" then d else s

/-- The location predicate of `getWeatherForecast`:
`loc.local.toLowerCase().includes(city.toLowerCase())`. -/
def cityMatch (city : String) (loc : Location) : Bool :=
  strIncludes (strToLower loc.local_) (strToLower city)

/-- One formatted forecast-day block of `getWeatherForecast`'s output. -/
def renderForecastDay (weatherTypes : List (Nat × WeatherType)) (day : ForecastDay) : String :=
  let weatherDesc :=
    match objLookup weatherTypes day.idWeatherType with
    | some wt => if wt.descWeatherTypePT = "" then "Desconhecido" else wt.descWeatherTypePT
    | none => "Desconhecido"
  "**" ++ day.forecastDate ++ "**\n" ++
  ("Temperatura: " ++ day.tMin ++ "°C - " ++ day.tMax ++ "°C\n") ++
  ("Condições: " ++ weatherDesc ++ "\n") ++
  ("Probabilidade de precipitação: " ++ day.precipitaProb ++ "%\n") ++
  ("Vento: " ++ day.predWindDir ++ "\n\n")

/-- The day blocks rendered for one forecast call:
`forecastData.data.slice(0, days)` mapped through the per-day formatter. -/
def forecastBlocks (weatherTypes : List (Nat × WeatherType)) (fdata : List ForecastDay)
    (days : Nat) : List String :=
  (fdata.take days).map (renderForecastDay weatherTypes)

/-- Body of `getWeatherForecast` (the code inside its `try` block). -/
def getWeatherForecastBody (env : Env) (city : String) (days : Nat) :
    Except String ToolResult :=
  match env.locations with
  | .error m => .error m
  | .ok locationsData =>
    match locationsData.data.find? (fun loc => cityMatch city loc) with
    | none =>
      .ok (textResult ("Cidade \"" ++ city ++
        "\" não encontrada. Use get_locations para ver cidades disponíveis."))
    | some location =>
      match env.forecast location.globalIdLocal with
      | .error m => .error m
      | .ok forecastData =>
        match env.weatherTypes with
        | .error m => .error m
        | .ok weatherTypesData =>
          let weatherTypes := weatherTypesData.data.map (fun w => (w.idWeatherType, w))
          let header := "**Previsão para " ++ location.local_ ++ "**\n\n" ++
            ("Coordenadas: " ++ location.latitude ++ ", " ++ location.longitude ++ "\n") ++
            ("Última atualização: " ++ forecastData.dataUpdate ++ "\n\n")
          .ok (textResult
            (header ++ String.join (forecastBlocks weatherTypes forecastData.data days)))

/-- The `getWeatherForecast` method: body wrapped by its `catch`, which
re-signals any raised error as `InternalError` with the handler prefix. -/
def getWeatherForecast (env : Env) (city : String) (days : Nat) :
    Except McpError ToolResult :=
  (getWeatherForecastBody env city days).mapError
    (fun m => ⟨.internalError, "Erro ao obter previsão: " ++ m⟩)

/-- JavaScript `Date` locale formatting is runtime-library behaviour outside
this repository; it is embedded as the identity on the timestamp string. -/
def toLocaleStringPT (s : String) : String := s

/-- One formatted warning block of `getWeatherWarnings`'s output. -/
def renderWarning (w : Warning) : String :=
  "**" ++ w.awarenessTypeName ++ "**\n" ++
  ("Área: " ++ w.idAreaAviso ++ "\n") ++
  ("Nível: " ++ w.awarenessLevelID ++ "\n") ++
  ("De: " ++ toLocaleStringPT w.startTime ++ "\n") ++
  ("Até: " ++ toLocaleStringPT w.endTime ++ "\n") ++
  (match w.text with
   | some t => if t = "" then "" else "Detalhes: " ++ t ++ "\n"
   | none => "") ++
  "\n"

/-- Body of `getWeatherWarnings` (the code inside its `try` block). -/
def getWeatherWarningsBody (env : Env) : Except String ToolResult :=
  match env.warnings with
  | .error m => .error m
  | .ok none =>
    .ok (textResult ("Não há avisos meteorológicos ativos no momento."))
  | .ok (some []) =>
    .ok (textResult ("Não há avisos meteorológicos ativos no momento."))
  | .ok (some l) =>
    .ok (textResult
      ("**Avisos Meteorológicos Ativos**\n\n" ++ String.join (l.map renderWarning)))

/-- The `getWeatherWarnings` method: body wrapped by its `catch`. -/
def getWeatherWarnings (env : Env) : Except McpError ToolResult :=
  (getWeatherWarningsBody env).mapError
    (fun m => ⟨.internalError, "Erro ao obter avisos: " ++ m⟩)

/-- The `switch (area.toLowerCase())` of `getSeismicData`: every value other
than the three recognised names falls through to area id 1. -/
def seismicAreaId (area : String) : Nat :=
  if strToLower area = "continent" then 1
  else if strToLower area = "azores" then 2
  else if strToLower area = "madeira" then 3
  else 1

/-- One formatted seismic-event block of `getSeismicData`'s output. -/
def renderQuake (q : Quake) : String :=
  "**" ++ toLocaleStringPT q.time ++ "**\n" ++
  ("Local: " ++
    (match q.obsRegion with
     | some r => if r = "" then "N/A" else r
     | none => "N/A") ++ "\n") ++
  ("Magnitude: " ++ q.magnitud ++ " " ++ q.magType ++ "\n") ++
  ("Profundidade: " ++ q.depth ++ " km\n") ++
  ("Coordenadas: " ++ q.lat ++ ", " ++ q.lon ++ "\n\n")

/-- The seismic events actually rendered: `data.data.slice(0, 10)`. -/
def seismicRecent (l : List Quake) : List Quake := l.take 10

/-- Body of `getSeismicData` (the code inside its `try` block). -/
def getSeismicDataBody (env : Env) (area : String) : Except String ToolResult :=
  match env.seismic (seismicAreaId area) with
  | .error m => .error m
  | .ok resp =>
    match resp.data with
    | none =>
      .ok (textResult ("Não há dados sísmicos recentes para a área especificada."))
    | some [] =>
      .ok (textResult ("Não há dados sísmicos recentes para a área especificada."))
    | some (q :: rest) =>
      .ok (textResult
        ("**Dados Sísmicos - " ++ area ++ "**\n\n" ++
         ("Última atualização: " ++ q.dataUpdate ++ "\n\n") ++
         String.join ((seismicRecent (q :: rest)).map renderQuake)))

/-- The `getSeismicData` method: body wrapped by its `catch`. -/
def getSeismicData (env : Env) (area : String) : Except McpError ToolResult :=
  (getSeismicDataBody env area).mapError
    (fun m => ⟨.internalError, "Erro ao obter dados sísmicos: " ++ m⟩)

/-- Ascending insertion without duplicates, used to model the enumeration
order of an integer-keyed JavaScript object. -/
def insertAscUnique (n : Nat) : List Nat → List Nat
  | [] => [n]
  | m :: rest =>
    if n = m then m :: rest
    else if n < m then n :: m :: rest
    else m :: insertAscUnique n rest

/-- Enumeration order of the integer-keyed object `groupedByDistrict`:
JavaScript enumerates integer-like keys in ascending numeric order. -/
def districtKeys (locs : List Location) : List Nat :=
  locs.foldl (fun acc loc => insertAscUnique loc.idDistrito acc) []

/-- One district group block of `getLocations`'s output. -/
def renderDistrictGroup (g : List Location) : String :=
  "**Região " ++
  (match g with
   | [] => "undefined"
   | l :: _ => toString l.idDistrito) ++ ":**\n" ++
  String.join (g.map (fun loc =>
    "• " ++ loc.local_ ++ " (" ++ loc.latitude ++ ", " ++ loc.longitude ++ ")\n")) ++
  "\n"

/-- Body of `getLocations` (the code inside its `try` block). -/
def getLocationsBody (env : Env) : Except String ToolResult :=
  match env.locations with
  | .error m => .error m
  | .ok locationsData =>
    let groups := (districtKeys locationsData.data).map
      (fun i => locationsData.data.filter (fun loc => loc.idDistrito == i))
    .ok (textResult
      ("**Locais Disponíveis para Previsão**\n\n" ++
       String.join (groups.map renderDistrictGroup)))

/-- The `getLocations` method: body wrapped by its `catch`. -/
def getLocations (env : Env) : Except McpError ToolResult :=
  (getLocationsBody env).mapError
    (fun m => ⟨.internalError, "Erro ao obter locais: " ++ m⟩)

/-- Station display name: `stationsInfo[stationId]` with the template
fallback for a missing or falsy name. -/
def stationDisplayName (info : List (Nat × String)) (sid : Nat) : String :=
  match objLookup info sid with
  | some nm => if nm = "" then "Estação " ++ toString sid else nm
  | none => "Estação " ++ toString sid

/-- The lines appended for one station observation; each measured field is
guarded by `value > -99`, so sentinel readings contribute no line. -/
def renderStationLines (name : String) (obs : Obs) : List String :=
  ("**" ++ name ++ "**") ::
  ((if obs.temperatura > -99 then ["Temperatura: " ++ toString obs.temperatura ++ "°C"] else []) ++
   (if obs.humidade > -99 then ["Humidade: " ++ toString obs.humidade ++ "%"] else []) ++
   (if obs.pressao > -99 then ["Pressão: " ++ toString obs.pressao ++ " hPa"] else []) ++
   (if obs.intensidadeVento > -99 then ["Vento: " ++ toString obs.intensidadeVento ++ " m/s"] else []) ++
   (if obs.precAcumulada > -99 then ["Precipitação: " ++ toString obs.precAcumulada ++ " mm"] else []))

/-- One station block: its lines each followed by a newline, then the
trailing blank line. -/
def renderStation (name : String) (obs : Obs) : String :=
  String.join ((renderStationLines name obs).map (fun l => l ++ "\n")) ++ "\n"

/-- The stations actually rendered from the latest observation object:
`Object.keys(latestObservations).slice(0, 15)`. -/
def stationsShown (m : List (Nat × Obs)) : List (Nat × Obs) := m.take 15

/-- Body of `getWeatherStations` (the code inside its `try` block).  An
empty observations object makes `data[latestTimestamp]` undefined and
`Object.keys` on it raises a TypeError. -/
def getWeatherStationsBody (env : Env) : Except String ToolResult :=
  match env.observations with
  | .error m => .error m
  | .ok data =>
    match env.stations with
    | .error m => .error m
    | .ok stationsData =>
      let stationsInfo := stationsData.map
        (fun st => (st.properties.idEstacao, st.properties.localEstacao))
      match data.getLast? with
      | none => .error ("Cannot convert undefined or null to object")
      | some (latestTimestamp, latestObservations) =>
        .ok (textResult
          ("**Observações das Estações Meteorológicas**\n\n" ++
           ("🕐 Observações de: " ++ latestTimestamp ++ "\n\n") ++
           String.join ((stationsShown latestObservations).map
             (fun p => renderStation (stationDisplayName stationsInfo p.1) p.2))))

/-- The `getWeatherStations` method: body wrapped by its `catch`. -/
def getWeatherStations (env : Env) : Except McpError ToolResult :=
  (getWeatherStationsBody env).mapError
    (fun m => ⟨.internalError, "Erro ao obter dados das estações: " ++ m⟩)

/-- UV category thresholds applied to the parsed `iUv` value. -/
def uvCategory (uvLevel : ℚ) : String :=
  if uvLevel ≤ 2 then "Baixo"
  else if uvLevel ≤ 5 then "Moderado"
  else if uvLevel ≤ 7 then "Alto"
  else if uvLevel ≤ 10 then "Muito Alto"
  else "Extremo"

/-- Location display name for a UV entry: `locationMap[globalIdLocal]` with
the template fallback for a missing or falsy name. -/
def uvLocationName (locationMap : List (Nat × String)) (gid : Nat) : String :=
  match objLookup locationMap gid with
  | some n => if n = "" then "Local " ++ toString gid else n
  | none => "Local " ++ toString gid

/-- One rendered UV line: location, raw value, category in parentheses,
hour interval. -/
def renderUVLine (locationMap : List (Nat × String)) (uv : UVData) : String :=
  "• " ++ uvLocationName locationMap uv.globalIdLocal ++ ": UV " ++ toString uv.iUv ++
  " (" ++ uvCategory uv.iUv ++ ") - " ++ uv.intervaloHora ++ "\n"

/-- Keys of the `uvByDate` object in insertion order (date strings are not
integer-like, so JavaScript preserves first-occurrence order). -/
def uvDates (l : List UVData) : List String :=
  l.foldl (fun acc u => if acc.contains u.data then acc else acc ++ [u.data]) []

/-- The dates actually rendered: `Object.keys(uvByDate).slice(0, 3)`. -/
def uvDatesShown (l : List UVData) : List String := (uvDates l).take 3

/-- The entries grouped under one date, in push order. -/
def uvEntriesFor (l : List UVData) (d : String) : List UVData :=
  l.filter (fun u => u.data == d)

/-- The entries actually rendered for one date:
`uvByDate[date].slice(0, 10)`. -/
def uvEntriesShown (l : List UVData) (d : String) : List UVData :=
  (uvEntriesFor l d).take 10

/-- Body of `getUVForecast` (the code inside its `try` block). -/
def getUVForecastBody (env : Env) : Except String ToolResult :=
  match env.uv with
  | .error m => .error m
  | .ok none =>
    .ok (textResult ("Não há dados de UV disponíveis no momento."))
  | .ok (some []) =>
    .ok (textResult ("Não há dados de UV disponíveis no momento."))
  | .ok (some (u :: us)) =>
    match env.locations with
    | .error m => .error m
    | .ok locationsData =>
      let locationMap := locationsData.data.map (fun loc => (loc.globalIdLocal, loc.local_))
      .ok (textResult
        ("**Previsão do Índice UV**\n\n" ++
         String.join ((uvDatesShown (u :: us)).map (fun d =>
           "📅 **" ++ d ++ "**\n" ++
           String.join ((uvEntriesShown (u :: us) d).map (renderUVLine locationMap)) ++
           "\n"))))

/-- The `getUVForecast` method: body wrapped by its `catch`. -/
def getUVForecast (env : Env) : Except McpError ToolResult :=
  (getUVForecastBody env).mapError
    (fun m => ⟨.internalError, "Erro ao obter previsão UV: " ++ m⟩)

/-- Arguments object of a tool call; every parameter is optional at the
protocol level. -/
structure CallArgs where
  city : Option String := none
  days : Option Nat := none
  area : Option String := none
  deriving DecidableEq

/-- A `{name, arguments}` tool call; `arguments := none` models an absent
arguments object (the `args?.` optional chain). -/
structure ToolCall where
  name : String
  arguments : Option CallArgs := none
  deriving DecidableEq

/-- The handler invocation the dispatcher selects, with the argument values
it passes. -/
inductive HandlerCall where
  | forecast (city : String) (days : Nat)
  | warnings
  | seismic (area : String)
  | locations
  | stations
  | uv
  deriving DecidableEq

/-- The `switch (name)` of the `CallToolRequestSchema` handler up to the
point a handler is invoked: validation of `city` (the `!args?.city`
truthiness check), application of the `days` and `area` defaults, and the
unknown-name rejection. -/
def route (c : ToolCall) : Except McpError HandlerCall :=
  if c.name = "get_weather_forecast" then
    match c.arguments.bind CallArgs.city with
    | none => .error ⟨.invalidParams, "City parameter is required"⟩
    | some s =>
      if s = "" then .error ⟨.invalidParams, "City parameter is required"⟩
      else .ok (.forecast s (jsNumOr (c.arguments.bind CallArgs.days) 5))
  else if c.name = "get_weather_warnings" then .ok .warnings
  else if c.name = "get_seismic_data" then
    .ok (.seismic (jsStrOr (c.arguments.bind CallArgs.area) ("all")))
  else if c.name = "get_locations" then .ok .locations
  else if c.name = "get_weather_stations" then .ok .stations
  else if c.name = "get_uv_forecast" then .ok .uv
  else .error ⟨.methodNotFound, "Tool " ++ c.name ++ " not found"⟩

/-- Body (inside the `try`) of the selected handler method. -/
def handlerBody (env : Env) : HandlerCall → Except String ToolResult
  | .forecast city days => getWeatherForecastBody env city days
  | .warnings => getWeatherWarningsBody env
  | .seismic area => getSeismicDataBody env area
  | .locations => getLocationsBody env
  | .stations => getWeatherStationsBody env
  | .uv => getUVForecastBody env

/-- Invocation of the selected handler method (body plus its `catch`). -/
def runHandler (env : Env) : HandlerCall → Except McpError ToolResult
  | .forecast city days => getWeatherForecast env city days
  | .warnings => getWeatherWarnings env
  | .seismic area => getSeismicData env area
  | .locations => getLocations env
  | .stations => getWeatherStations env
  | .uv => getUVForecast env

/-- The complete `CallToolRequestSchema` handler: route, then run the
selected handler.  The surrounding `catch` re-throws any `McpError`
unchanged; handlers only ever throw `McpError`, so the generic `Error:`
re-wrap of the outer catch is unreachable. -/
def dispatch (env : Env) (c : ToolCall) : Except McpError ToolResult :=
  match route c with
  | .error e => .error e
  | .ok hc => runHandler env hc

/-- Default value recorded in a tool descriptor's input schema. -/
inductive DefaultVal where
  | num (n : Nat)
  | str (s : String)
  deriving DecidableEq

/-- Schema of one input parameter of a tool descriptor. -/
structure ParamSchema where
  type : String
  description : String
  default : Option DefaultVal := none
  deriving DecidableEq

/-- Input schema of a tool descriptor. -/
structure InputSchema where
  type : String := "object"
  properties : List (String × ParamSchema) := []
  required : List String := []
  deriving DecidableEq

/-- One entry of the tool catalog. -/
structure ToolDescriptor where
  name : String
  description : String
  inputSchema : InputSchema
  deriving DecidableEq

/-- Schema of the forecast tool's `city` parameter. -/
def citySchema : ParamSchema :=
  { type := "string", description := "Nome da cidade (ex: Lisboa, Porto, Coimbra, Faro, etc.)" }

/-- Schema of the forecast tool's `days` parameter, with its default of 5. -/
def daysSchema : ParamSchema :=
  { type := "number", description := "Número de dias de previsão (máximo 10)", default := some (.num 5) }

/-- Schema of the seismic tool's `area` parameter, with its default of `"all"`. -/
def areaSchema : ParamSchema :=
  { type := "string", description := "Área: \x27continent\x27, \x27azores\x27, \x27madeira\x27, ou \x27all\x27", default := some (.str "all") }

/-- Descriptor of `get_weather_forecast`: `city` required, `days` optional. -/
def forecastDescriptor : ToolDescriptor :=
  { name := "get_weather_forecast",
    description := "Obter previsão meteorológica para uma cidade específica em Portugal",
    inputSchema := { properties := [("city", citySchema), ("days", daysSchema)], required := ["city"] } }

/-- Descriptor of `get_weather_warnings`: no parameters. -/
def warningsDescriptor : ToolDescriptor :=
  { name := "get_weather_warnings",
    description := "Obter avisos meteorológicos ativos em Portugal",
    inputSchema := {} }

/-- Descriptor of `get_seismic_data`: optional `area`. -/
def seismicDescriptor : ToolDescriptor :=
  { name := "get_seismic_data",
    description := "Obter dados sísmicos recentes",
    inputSchema := { properties := [("area", areaSchema)] } }

/-- Descriptor of `get_locations`: no parameters. -/
def locationsDescriptor : ToolDescriptor :=
  { name := "get_locations",
    description := "Listar todas as cidades/locais disponíveis para previsão",
    inputSchema := {} }

/-- Descriptor of `get_weather_stations`: no parameters. -/
def stationsDescriptor : ToolDescriptor :=
  { name := "get_weather_stations",
    description := "Obter dados de observação das estações meteorológicas",
    inputSchema := {} }

/-- Descriptor of `get_uv_forecast`: no parameters. -/
def uvDescriptor : ToolDescriptor :=
  { name := "get_uv_forecast",
    description := "Obter previsão do índice UV",
    inputSchema := {} }

/-- The fixed catalog literal the `ListToolsRequestSchema` handler returns
on every request (after an awaited 100ms delay that does not affect the
value). -/
def listToolsResult : List ToolDescriptor :=
  [ forecastDescriptor, warningsDescriptor, seismicDescriptor,
    locationsDescriptor, stationsDescriptor, uvDescriptor ]

/-- The six catalogued tool names, in catalog order. -/
def knownToolNames : List String :=
  [ "get_weather_forecast", "get_weather_warnings", "get_seismic_data",
    "get_locations", "get_weather_stations", "get_uv_forecast" ]

/-- Environment in which every endpoint returns empty but well-formed data
except the forecast-by-id endpoint, which fails. -/
def emptyEnv : Env :=
  { locations := .ok { data := [] }
    forecast := fun _ => .error ("fetch failed")
    weatherTypes := .ok { data := [] }
    warnings := .ok (some [])
    seismic := fun _ => .ok { data := none }
    observations := .ok []
    stations := .ok []
    uv := .ok none }

/-- Environment whose warnings endpoint raises a network error. -/
def failEnv : Env := { emptyEnv with warnings := .error ("network down") }

/-- Environment differing from `emptyEnv` only in the locations endpoint. -/
def altEnv : Env := { emptyEnv with locations := .error ("offline") }

/-- The Braga test location of the specification's forecast scenario. -/
def bragaLocation : Location :=
  { local_ := "Braga", globalIdLocal := 123, latitude := "41.55",
    longitude := "-8.42", idDistrito := 3 }

/-- A concrete daily forecast entry. -/
def sampleDay : ForecastDay :=
  { forecastDate := "2024-01-01", tMin := "5", tMax := "12", idWeatherType := 1,
    precipitaProb := "20.0", predWindDir := "N" }

/-- Environment for the Braga forecast scenario: one matching location and a
seven-day forecast for its id. -/
def bragaEnv : Env :=
  { locations := .ok { data := [bragaLocation] }
    forecast := fun _ =>
      .ok { dataUpdate := "2024-01-01T00:00:00", data := List.replicate 7 sampleDay }
    weatherTypes := .ok { data := [] }
    warnings := .ok (some [])
    seismic := fun _ => .ok { data := none }
    observations := .ok []
    stations := .ok []
    uv := .ok none }

/-- A station observation whose every field is the sentinel `-99`. -/
def sentinelObs : Obs :=
  { temperatura := -99, humidade := -99, pressao := -99,
    intensidadeVento := -99, precAcumulada := -99 }

/-- A list whose head is a character other than `c` has no prefix starting
with `c`. -/
theorem isPrefixOf_false_of_head_ne {c : Char} {ts l : List Char}
    (h : l.head? ≠ some c) : (c :: ts).isPrefixOf l = false := by
  cases l with
  | nil => rfl
  | cons d ds =>
    simp only [List.head?] at h
    have hdc : (c == d) = false := by
      cases hcd : c == d with
      | false => rfl
      | true =>
        have hce : c = d := beq_iff_eq.mp hcd
        subst hce
        exact absurd rfl h
    simp [List.isPrefixOf, hdc]

/-- Membership in a conditional singleton list forces equality with the
singleton element. -/
theorem mem_if_singleton {c : Prop} [Decidable c] {x l : String}
    (h : l ∈ if c then [x] else []) : l = x := by
  by_cases hc : c
  · rw [if_pos hc] at h
    simpa using h
  · rw [if_neg hc] at h
    simp at h

/-- A string whose first character is not `T` does not start with the text
`Temperatura:`. -/
theorem not_temperatura_prefix {s : String} {first : Char} {rest : List Char}
    (hs : s.data = first :: rest) (hne : first ≠ 'T') :
    ("Temperatura:".data.isPrefixOf s.data) = false := by
  have hT : "Temperatura:".data = 'T' :: "emperatura:".data := rfl
  rw [hT, hs]
  apply isPrefixOf_false_of_head_ne
  simp [hne]

/-- The forecast call of the C1 counterexample: `city` present but empty,
`days` absent. -/
def claim1Cex : ToolCall :=
  { name := "get_weather_forecast", arguments := some { city := some "" } }

/-- C1 is false as stated: in this call `city` is present (the empty
string) and `days` is absent, yet the dispatcher rejects the call with
`InvalidParams` — the truthiness check `!args?.city` fires — instead of
invoking the handler with `days = 5`. -/
theorem claim1_counterexample :
    claim1Cex.arguments.bind CallArgs.city = some "" ∧
    claim1Cex.arguments.bind CallArgs.days = none ∧
    route claim1Cex = .error ⟨.invalidParams, "City parameter is required"⟩ ∧
    dispatch emptyEnv claim1Cex = .error ⟨.invalidParams, "City parameter is required"⟩ :=
  ⟨rfl, rfl, rfl, rfl⟩

/-- C1 (amended): a forecast call whose arguments lack `city` fails with
`InvalidParams` before any handler is invoked; a forecast call whose `city`
is present and non-empty but whose `days` is absent invokes the forecast
handler with `days = 5`; a seismic call whose `area` is absent invokes the
seismic handler with `area = "all"`. -/
theorem claim1_required_city_and_defaults (env : Env) (c : ToolCall) :
    (c.name = "get_weather_forecast" → c.arguments.bind CallArgs.city = none →
      route c = .error ⟨.invalidParams, "City parameter is required"⟩ ∧
      dispatch env c = .error ⟨.invalidParams, "City parameter is required"⟩) ∧
    (∀ s, c.name = "get_weather_forecast" → c.arguments.bind CallArgs.city = some s →
      s ≠ "" → c.arguments.bind CallArgs.days = none →
      route c = .ok (.forecast s 5) ∧ dispatch env c = getWeatherForecast env s 5) ∧
    (c.name = "get_seismic_data" → c.arguments.bind CallArgs.area = none →
      route c = .ok (.seismic "all") ∧ dispatch env c = getSeismicData env ("all")) := by
  refine ⟨?_, ?_, ?_⟩
  · intro hn hc
    have hr : route c = .error ⟨.invalidParams, "City parameter is required"⟩ := by
      simp [route, hn, hc]
    exact ⟨hr, by simp [dispatch, hr]⟩
  · intro s hn hc hs hd
    have hr : route c = .ok (.forecast s 5) := by
      simp [route, hn, hc, hs, hd, jsNumOr]
    exact ⟨hr, by simp [dispatch, hr, runHandler]⟩
  · intro hn ha
    have hr : route c = .ok (.seismic "all") := by
      simp [route, hn, ha, jsStrOr]
    exact ⟨hr, by simp [dispatch, hr, runHandler]⟩

/-- Concrete instances of the amended C1: missing `city` is rejected,
`days` defaults to 5 for a present non-empty `city`, `area` defaults to
`"all"`. -/
theorem claim1_witness :
    dispatch emptyEnv { name := "get_weather_forecast", arguments := some {} } =
      .error ⟨.invalidParams, "City parameter is required"⟩ ∧
    route { name := "get_weather_forecast", arguments := some { city := some "Porto" } } =
      .ok (.forecast "Porto" 5) ∧
    route { name := "get_seismic_data", arguments := some {} } = .ok (.seismic "all") := by
  refine ⟨?_, ?_, ?_⟩
  · exact ((claim1_required_city_and_defaults emptyEnv
      { name := "get_weather_forecast", arguments := some {} }).1 rfl rfl).2
  · exact ((claim1_required_city_and_defaults emptyEnv
      { name := "get_weather_forecast", arguments := some { city := some "Porto" } }).2.1
      "Porto" rfl rfl (by decide) rfl).1
  · exact ((claim1_required_city_and_defaults emptyEnv
      { name := "get_seismic_data", arguments := some {} }).2.2 rfl rfl).1

/-- C2: a tool call whose name is none of the six catalogued names is
rejected with `MethodNotFound` (carrying the name in the message), and the
dispatch result is exactly that error, so no handler is invoked. -/
theorem claim2_unknown_tool (env : Env) (c : ToolCall)
    (h : c.name ∉ knownToolNames) :
    route c = .error ⟨.methodNotFound, "Tool " ++ c.name ++ " not found"⟩ ∧
    dispatch env c = .error ⟨.methodNotFound, "Tool " ++ c.name ++ " not found"⟩ := by
  simp only [knownToolNames, List.mem_cons, List.not_mem_nil, or_false, not_or] at h
  obtain ⟨h1, h2, h3, h4, h5, h6⟩ := h
  have hr : route c = .error ⟨.methodNotFound, "Tool " ++ c.name ++ " not found"⟩ := by
    unfold route
    rw [if_neg h1, if_neg h2, if_neg h3, if_neg h4, if_neg h5, if_neg h6]
  exact ⟨hr, by simp [dispatch, hr]⟩

/-- Concrete instance of C2: the unknown name `nope` yields
`MethodNotFound`. -/
theorem claim2_witness :
    ("nope" : String) ∉ knownToolNames ∧
    dispatch emptyEnv { name := "nope" } =
      .error ⟨.methodNotFound, "Tool " ++ "nope" ++ " not found"⟩ := by
  have h : ("nope" : String) ∉ knownToolNames := by decide
  exact ⟨h, (claim2_unknown_tool emptyEnv { name := "nope" } h).2⟩

/-- C3: route errors (the two validation conditions) propagate through the
dispatcher unchanged and carry exactly the `InvalidParams` or
`MethodNotFound` kind; an error message `m` raised inside the selected
handler's body surfaces to the caller as an `InternalError` whose message
is the handler's prefix followed by the original message `m`. -/
theorem claim3_error_channels (env : Env) (c : ToolCall) :
    (∀ e, route c = .error e → dispatch env c = .error e ∧
      (e.code = .invalidParams ∨ e.code = .methodNotFound)) ∧
    (∀ hc m, route c = .ok hc → handlerBody env hc = .error m →
      ∃ p, dispatch env c = .error ⟨.internalError, p ++ m⟩) := by
  constructor
  · intro e h
    refine ⟨by simp [dispatch, h], ?_⟩
    unfold route at h
    split_ifs at h <;> (try split at h) <;> (try split at h) <;>
      first
        | exact Except.noConfusion h
        | (simp only [Except.error.injEq] at h; rw [← h]; exact Or.inl rfl)
        | (simp only [Except.error.injEq] at h; rw [← h]; exact Or.inr rfl)
  · intro hc m hr hb
    have hd : dispatch env c = runHandler env hc := by simp [dispatch, hr]
    rw [hd]
    cases hc with
    | forecast city days =>
      simp only [handlerBody] at hb
      exact ⟨"Erro ao obter previsão: ",
        by simp [runHandler, getWeatherForecast, hb, Except.mapError]⟩
    | warnings =>
      simp only [handlerBody] at hb
      exact ⟨"Erro ao obter avisos: ",
        by simp [runHandler, getWeatherWarnings, hb, Except.mapError]⟩
    | seismic area =>
      simp only [handlerBody] at hb
      exact ⟨"Erro ao obter dados sísmicos: ",
        by simp [runHandler, getSeismicData, hb, Except.mapError]⟩
    | locations =>
      simp only [handlerBody] at hb
      exact ⟨"Erro ao obter locais: ",
        by simp [runHandler, getLocations, hb, Except.mapError]⟩
    | stations =>
      simp only [handlerBody] at hb
      exact ⟨"Erro ao obter dados das estações: ",
        by simp [runHandler, getWeatherStations, hb, Except.mapError]⟩
    | uv =>
      simp only [handlerBody] at hb
      exact ⟨"Erro ao obter previsão UV: ",
        by simp [runHandler, getUVForecast, hb, Except.mapError]⟩

/-- Concrete instance of C3: a network error in the warnings fetch surfaces
as `InternalError` carrying the original message, while a validation error
propagates unchanged. -/
theorem claim3_witness :
    route { name := "get_weather_warnings" } = .ok .warnings ∧
    handlerBody failEnv .warnings = .error ("network down") ∧
    (∃ p, dispatch failEnv { name := "get_weather_warnings" } =
      .error ⟨.internalError, p ++ "network down"⟩) ∧
    dispatch failEnv { name := "get_weather_forecast" } =
      .error ⟨.invalidParams, "City parameter is required"⟩ := by
  have h1 : route ({ name := "get_weather_warnings" } : ToolCall) = .ok .warnings := rfl
  have h2 : handlerBody failEnv .warnings = .error ("network down") := rfl
  have h3 : route ({ name := "get_weather_forecast" } : ToolCall) =
      .error ⟨.invalidParams, "City parameter is required"⟩ := rfl
  exact ⟨h1, h2, (claim3_error_channels failEnv _).2 .warnings ("network down") h1 h2,
    ((claim3_error_channels failEnv _).1 _ h3).1⟩

/-- C4: "not found" domain outcomes are successful results with a fixed
explanatory text, not errors: a city matching no location entry yields the
placeholder forecast text, and an empty warnings array yields the fixed
"no active warnings" text. -/
theorem claim4_not_found_success (env : Env) (city : String) (days : Nat)
    (locs : LocationsResp) :
    (env.locations = .ok locs →
      locs.data.find? (fun loc => cityMatch city loc) = none →
      getWeatherForecast env city days = .ok (textResult ("Cidade \"" ++ city ++
        "\" não encontrada. Use get_locations para ver cidades disponíveis."))) ∧
    (env.warnings = .ok (some []) →
      getWeatherWarnings env =
        .ok (textResult ("Não há avisos meteorológicos ativos no momento."))) := by
  constructor
  · intro h1 h2
    simp [getWeatherForecast, getWeatherForecastBody, h1, h2, Except.mapError]
  · intro h
    simp [getWeatherWarnings, getWeatherWarningsBody, h, Except.mapError]

/-- Concrete instance of C4: an empty location list and an empty warnings
array both produce successful placeholder results. -/
theorem claim4_witness :
    getWeatherForecast emptyEnv ("Faro") 3 = .ok (textResult ("Cidade \"" ++ "Faro" ++
      "\" não encontrada. Use get_locations para ver cidades disponíveis.")) ∧
    getWeatherWarnings emptyEnv =
      .ok (textResult ("Não há avisos meteorológicos ativos no momento.")) := by
  have h := claim4_not_found_success emptyEnv ("Faro") 3 { data := [] }
  exact ⟨h.1 rfl rfl, h.2 rfl⟩

/-- C5: with a location list in which the first case-insensitive substring
match for "braga" is `{local: "Braga", globalIdLocal: 123}` and a 7-entry
forecast for id 123, requesting 2 days renders exactly 2 day blocks and the
result text opens by referencing location "Braga". -/
theorem claim5_braga_two_days (env : Env) (locs : LocationsResp) (fc : ForecastResp)
    (wts : WeatherTypesResp) (pre suf : List Location) (lat lon : String) (dist : Nat)
    (hloc : env.locations = .ok locs)
    (hsplit : locs.data = pre ++ (⟨"Braga", 123, lat, lon, dist⟩ : Location) :: suf)
    (hpre : ∀ l ∈ pre, cityMatch ("braga") l = false)
    (hfc : env.forecast 123 = .ok fc)
    (hwts : env.weatherTypes = .ok wts)
    (hlen : fc.data.length = 7) :
    getWeatherForecast env ("braga") 2 = .ok (textResult ("**Previsão para Braga**\n\n" ++
      (("Coordenadas: " ++ lat ++ ", " ++ lon ++ "\n") ++
       ("Última atualização: " ++ fc.dataUpdate ++ "\n\n") ++
       String.join (forecastBlocks (wts.data.map (fun w => (w.idWeatherType, w))) fc.data 2)))) ∧
    (forecastBlocks (wts.data.map (fun w => (w.idWeatherType, w))) fc.data 2).length = 2 := by
  have hmatch : cityMatch ("braga") (⟨"Braga", 123, lat, lon, dist⟩ : Location) = true := rfl
  have hfind : locs.data.find? (fun loc => cityMatch ("braga") loc) =
      some ⟨"Braga", 123, lat, lon, dist⟩ := by
    rw [hsplit, List.find?_append]
    have h1 : List.find? (fun loc => cityMatch ("braga") loc) pre = none :=
      List.find?_eq_none.mpr (fun x hx => by simp [hpre x hx])
    rw [h1, List.find?_cons_of_pos _ hmatch]
    rfl
  constructor
  · have hS : ("**Previsão para " ++ "Braga" ++ "**\n\n" : String) =
        "**Previsão para Braga**\n\n" := by decide
    simp only [getWeatherForecast, getWeatherForecastBody, hloc, hfind, hfc, hwts,
      Except.mapError, ← hS]
    simp [String.append_assoc]
  · simp [forecastBlocks, hlen]

/-- Concrete instance of C5: the Braga environment with a 7-day forecast
renders exactly 2 day blocks for `days = 2`. -/
theorem claim5_witness :
    getWeatherForecast bragaEnv ("braga") 2 = .ok (textResult ("**Previsão para Braga**\n\n" ++
      (("Coordenadas: " ++ "41.55" ++ ", " ++ "-8.42" ++ "\n") ++
       ("Última atualização: " ++ "2024-01-01T00:00:00" ++ "\n\n") ++
       String.join (forecastBlocks [] (List.replicate 7 sampleDay) 2)))) ∧
    (forecastBlocks [] (List.replicate 7 sampleDay) 2).length = 2 := by
  have h := claim5_braga_two_days bragaEnv { data := [bragaLocation] }
    { dataUpdate := "2024-01-01T00:00:00", data := List.replicate 7 sampleDay }
    { data := [] } [] [] "41.55" "-8.42" 3 rfl rfl
    (fun l hl => absurd hl (List.not_mem_nil l)) rfl rfl (by decide)
  exact h

/-- C6: the category printed in a rendered UV line is `uvCategory` of the
entry's `iUv` value, and `uvCategory` realises the documented thresholds:
at most 2 low, at most 5 moderate, at most 7 high, at most 10 very high,
otherwise extreme; in particular 6 renders "Alto" and 11 renders
"Extremo". -/
theorem claim6_uv_thresholds (locMap : List (Nat × String)) (uv : UVData) :
    (∃ a b, renderUVLine locMap uv = a ++ ("(" ++ uvCategory uv.iUv ++ ")") ++ b) ∧
    (uv.iUv ≤ 2 → uvCategory uv.iUv = "Baixo") ∧
    (2 < uv.iUv → uv.iUv ≤ 5 → uvCategory uv.iUv = "Moderado") ∧
    (5 < uv.iUv → uv.iUv ≤ 7 → uvCategory uv.iUv = "Alto") ∧
    (7 < uv.iUv → uv.iUv ≤ 10 → uvCategory uv.iUv = "Muito Alto") ∧
    (10 < uv.iUv → uvCategory uv.iUv = "Extremo") ∧
    (uv.iUv = 6 → uvCategory uv.iUv = "Alto") ∧
    (uv.iUv = 11 → uvCategory uv.iUv = "Extremo") := by
  refine ⟨?_, ?_, ?_, ?_, ?_, ?_, ?_, ?_⟩
  · refine ⟨"• " ++ uvLocationName locMap uv.globalIdLocal ++ ": UV " ++
      toString uv.iUv ++ " ", " - " ++ uv.intervaloHora ++ "\n", ?_⟩
    have e1 : (" (" : String) = " " ++ "(" := by decide
    have e2 : (") - " : String) = ")" ++ " - " := by decide
    unfold renderUVLine
    rw [e1, e2]
    simp only [String.append_assoc]
  · intro h1
    simp [uvCategory, h1]
  · intro h1 h2
    unfold uvCategory
    split_ifs <;> first | rfl | linarith
  · intro h1 h2
    unfold uvCategory
    split_ifs <;> first | rfl | linarith
  · intro h1 h2
    unfold uvCategory
    split_ifs <;> first | rfl | linarith
  · intro h1
    unfold uvCategory
    split_ifs <;> first | rfl | linarith
  · intro h
    rw [h]
    decide
  · intro h
    rw [h]
    decide

/-- Concrete instance of C6: the values 6 and 11 classify as "Alto" and
"Extremo". -/
theorem claim6_witness :
    uvCategory (6 : ℚ) = "Alto" ∧ uvCategory (11 : ℚ) = "Extremo" :=
  ⟨(claim6_uv_thresholds []
      { data := "2024-01-01", globalIdLocal := 1, iUv := 6, intervaloHora := "12h" }).2.2.2.2.2.2.1 rfl,
   (claim6_uv_thresholds []
      { data := "2024-01-01", globalIdLocal := 1, iUv := 11, intervaloHora := "12h" }).2.2.2.2.2.2.2 rfl⟩

/-- C7: a station observation whose `temperatura` is the sentinel `-99`
renders no line starting with `Temperatura:` — the temperature line is
omitted entirely. -/
theorem claim7_sentinel_omits_temperature (name : String) (obs : Obs)
    (h : obs.temperatura = -99) :
    ∀ l ∈ renderStationLines name obs, ("Temperatura:".data.isPrefixOf l.data) = false := by
  intro l hl
  rw [renderStationLines, h] at hl
  simp only [gt_iff_lt, lt_self_iff_false, if_false, List.nil_append] at hl
  rcases List.mem_cons.mp hl with rfl | hl2
  · exact not_temperatura_prefix rfl (by decide)
  · rcases List.mem_append.mp hl2 with h3 | h4
    · rcases List.mem_append.mp h3 with h5 | h6
      · rcases List.mem_append.mp h5 with h7 | h8
        · rw [mem_if_singleton h7]
          exact not_temperatura_prefix rfl (by decide)
        · rw [mem_if_singleton h8]
          exact not_temperatura_prefix rfl (by decide)
      · rw [mem_if_singleton h6]
        exact not_temperatura_prefix rfl (by decide)
    · rw [mem_if_singleton h4]
      exact not_temperatura_prefix rfl (by decide)

/-- Concrete instance of C7: the all-sentinel observation renders only the
station name line, which does not start with `Temperatura:`. -/
theorem claim7_witness :
    sentinelObs.temperatura = -99 ∧
    ("Temperatura:".data.isPrefixOf ("**Braga**" : String).data) = false :=
  ⟨rfl, claim7_sentinel_omits_temperature "Braga" sentinelObs rfl "**Braga**" (by decide)⟩

/-- C8: every handler truncates its result set before rendering: at most 10
seismic events, at most 15 stations of the latest timestamp, at most 3 UV
dates with at most 10 entries each. -/
theorem claim8_truncation (quakes : List Quake) (m : List (Nat × Obs))
    (l : List UVData) (d : String) :
    (seismicRecent quakes).length ≤ 10 ∧
    (stationsShown m).length ≤ 15 ∧
    (uvDatesShown l).length ≤ 3 ∧
    (uvEntriesShown l d).length ≤ 10 := by
  refine ⟨?_, ?_, ?_, ?_⟩ <;>
    simp [seismicRecent, stationsShown, uvDatesShown, uvEntriesShown]

/-- C9: the "list tools" result is the fixed ordered catalog of exactly 6
descriptors — one per known tool name, without duplicates — with the
documented schemas: `city` required and `days` defaulting to 5 for the
forecast tool, `area` defaulting to `"all"` for the seismic tool.  The
catalog is a constant of the program, so it is independent of any prior
calls. -/
theorem claim9_catalog :
    listToolsResult.length = 6 ∧
    listToolsResult.map ToolDescriptor.name = knownToolNames ∧
    (listToolsResult.map ToolDescriptor.name).Nodup ∧
    (∀ n ∈ knownToolNames, (listToolsResult.filter (fun d => d.name == n)).length = 1) ∧
    (∃ d ∈ listToolsResult, d.name = "get_weather_forecast" ∧
      d.inputSchema.required = ["city"] ∧
      (∃ p, ("city", p) ∈ d.inputSchema.properties) ∧
      (∃ p, ("days", p) ∈ d.inputSchema.properties ∧ p.default = some (.num 5))) ∧
    (∃ d ∈ listToolsResult, d.name = "get_seismic_data" ∧
      (∃ p, ("area", p) ∈ d.inputSchema.properties ∧ p.default = some (.str "all"))) := by
  refine ⟨rfl, rfl, by decide, by decide, ?_, ?_⟩
  · exact ⟨forecastDescriptor, by decide, rfl, rfl, ⟨citySchema, by decide⟩,
      ⟨daysSchema, by decide, rfl⟩⟩
  · exact ⟨seismicDescriptor, by decide, rfl, ⟨areaSchema, by decide, rfl⟩⟩

/-- C10 (implicit behaviour): the seismic `area` argument is matched
case-insensitively — "continent" maps to area id 1, "azores" to 2,
"madeira" to 3 — and every other value, including the advertised default
"all", falls through to area id 1; consequently `area = "all"` consults
only the continental endpoint: the result depends only on the area-1
fetch. -/
theorem claim10_area_mapping (area : String) (env₁ env₂ : Env) :
    (strToLower area = "continent" → seismicAreaId area = 1) ∧
    (strToLower area = "azores" → seismicAreaId area = 2) ∧
    (strToLower area = "madeira" → seismicAreaId area = 3) ∧
    (strToLower area ≠ "continent" → strToLower area ≠ "azores" →
      strToLower area ≠ "madeira" → seismicAreaId area = 1) ∧
    seismicAreaId ("all") = 1 ∧
    (env₁.seismic 1 = env₂.seismic 1 →
      getSeismicData env₁ ("all") = getSeismicData env₂ ("all")) := by
  refine ⟨?_, ?_, ?_, ?_, rfl, ?_⟩
  · intro h
    simp [seismicAreaId, h]
  · intro h
    simp [seismicAreaId, h]
  · intro h
    simp [seismicAreaId, h]
  · intro h1 h2 h3
    simp [seismicAreaId, h1, h2, h3]
  · intro h
    unfold getSeismicData getSeismicDataBody
    rw [show seismicAreaId ("all") = 1 from rfl, h]

/-- Concrete instance of C10: "Azores" maps to id 2 case-insensitively,
"all" maps to id 1, and two environments equal on the area-1 fetch give
the same seismic result for `area = "all"`. -/
theorem claim10_witness :
    seismicAreaId ("Azores") = 2 ∧ seismicAreaId ("all") = 1 ∧
    getSeismicData emptyEnv ("all") = getSeismicData altEnv ("all") :=
  ⟨(claim10_area_mapping ("Azores") emptyEnv altEnv).2.1 (by decide),
   (claim10_area_mapping ("x") emptyEnv altEnv).2.2.2.2.1,
   (claim10_area_mapping ("x") emptyEnv altEnv).2.2.2.2.2 rfl⟩

end IPMA
